import Mathlib

/-!
Shallow embedding of `main.go` from the wigle-bluetooth-pager repository:
a BLE scanner that correlates discovery events with GPS position reports and
appends WiGLE-format CSV rows.

Modelling conventions:
* `float64` values carried by GPS reports are modelled as exact rationals
  (`Rat`): the program performs no floating-point arithmetic on them, only
  storage and decimal formatting, so the rational model is exact for every
  value exercised here.
* `uint32` / `int16` machine integers are modelled as `Nat` / `Int`; where
  32-bitness matters a `< 2 ^ 32` hypothesis appears in the theorem.
* Wall-clock instants (`time.Time`) are abstract: a `Nat` tick. Go renders
  the first-seen instant with layout `"2006-01-02 15:04:05"`; the embedding
  renders the abstract instant injectively, since no claim constrains the
  rendered text, only which instant is rendered.
* The external D-Bus registry is a function from object path to a result:
  an error, a non-`uint32` variant, or a `uint32` class value.
-/

/-- Embeds `LocationData` (main.go): the current GPS solution published by the
TPV callback and read by the scan callback. -/
structure LocationData where
  Fix : Bool
  Latitude : Rat
  Longitude : Rat
  Altitude : Rat
  Error : Rat
  deriving DecidableEq

/-- A gpsd TPV report, with the fields `tpvFilter` (main.go) consumes:
`Mode`, `Lat`, `Lon`, `Alt`, `Eph`. -/
structure TPVReport where
  Mode : Nat
  Lat : Rat
  Lon : Rat
  Alt : Rat
  Eph : Rat
  deriving DecidableEq

/-- Embeds the body of `tpvFilter` (main.go): `fix := report.Mode >= 2`, then
the stored snapshot is replaced by a whole freshly-built `LocationData`. -/
def tpvFilter (report : TPVReport) : LocationData :=
  { Fix := decide (2 ≤ report.Mode)
    Latitude := report.Lat
    Longitude := report.Lon
    Altitude := report.Alt
    Error := report.Eph }

/-- Embeds the `switch` of `deviceTypeLegend` (main.go) as an association
list: one entry per `case`, in source order. The `default` branch
(`return "Misc"`) is the lookup default in `deviceTypeLegend` below. -/
def deviceTypeTable : List (Nat × String) :=
  [(0x0000, "Misc"),
   (0x0100, "Computer"), (0x0104, "Desktop"), (0x0108, "Server"),
   (0x010C, "Laptop"), (0x0110, "PDA"), (0x0114, "Palm"),
   (0x0118, "Wearable Computer"),
   (0x0200, "Phone"), (0x0204, "Cellphone"), (0x0208, "Cordless Phone"),
   (0x020C, "Smartphone"), (0x0210, "Modem/GW"), (0x0214, "ISDN"),
   (0x0400, "A/V"), (0x0404, "Headset"), (0x0408, "Handsfree"),
   (0x0410, "Mic"), (0x0414, "Speaker"), (0x0418, "Headphones"),
   (0x041C, "Portable Audio"), (0x0420, "Car Audio"), (0x0428, "HiFi"),
   (0x0430, "Monitor"), (0x0434, "Settop"), (0x0438, "Camera"),
   (0x043C, "VCR"), (0x0440, "Videoconf"), (0x0448, "AV Toy"),
   (0x044C, "Display/Speaker"), (0x0456, "Camcorder"),
   (0x0500, "Keyboard !p"), (0x0540, "Keyboard"), (0x0580, "Pointer"),
   (0x05C0, "Keyboard+p"),
   (0x0700, "Wearable"), (0x0704, "Watch"), (0x0708, "Jacket"),
   (0x070C, "Pager"), (0x0710, "Helmet"), (0x0714, "Glasses"),
   (0x0800, "Toy"), (0x0804, "Robot"), (0x0808, "Vehicle"),
   (0x080C, "Doll"), (0x0814, "Game"), (0x0820, "Controller"),
   (0x0900, "Health"), (0x0904, "Blood Pressure"), (0x0908, "Thermometer"),
   (0x090C, "Scale"), (0x0910, "Glucose"), (0x0914, "PulseOxy"),
   (0x0918, "Pulse"), (0x091C, "Health Display"),
   (0x1F00, "Uncategorized")]

/-- Embeds `deviceTypeLegend` (main.go): first matching `case` wins, the
`default` branch returns `"Misc"`. -/
def deviceTypeLegend (deviceClass : Nat) : String :=
  (deviceTypeTable.lookup deviceClass).getD "Misc"

/-- Embeds `buildCapabilities` (main.go): mask to bits 2-12, look up the
legend, append `" [LE]"` when the name is nonempty. -/
def buildCapabilities (cod : Nat) : String :=
  let deviceClass := cod &&& 0x1FFC
  let name := deviceTypeLegend deviceClass
  if name ≠ "" then name ++ " [LE]" else "[LE]"

/-- Result of the D-Bus `GetProperty("org.bluez.Device1.Class")` call once it
succeeds: either a `uint32` (the only type the Go type assertion accepts) or
a variant of any other type. -/
inductive DBusVariant where
  | u32 (value : Nat)
  | other
  deriving DecidableEq

/-- Embeds `strings.ReplaceAll(addr, ":", "_")` (main.go, `getDeviceClass`).
Pattern and replacement are single characters, so a per-character map is
exactly equivalent. -/
def sanitizeAddr (addr : String) : String :=
  String.mk (addr.data.map fun c => if c = ':' then '_' else c)

/-- The BlueZ object path built in `getDeviceClass` (main.go). -/
def devicePath (addr : String) : String :=
  "/org/bluez/hci0/dev_" ++ sanitizeAddr addr

/-- Embeds `getDeviceClass` (main.go): query the registry at the device path;
on success with a `uint32` value return it, on any error or type mismatch
return 0. -/
def getDeviceClass (registry : String → Except String DBusVariant)
    (addr : String) : Nat :=
  match registry (devicePath addr) with
  | Except.ok (DBusVariant.u32 v) => v
  | _ => 0

/-- Left-pads a decimal string with zeros to the given width. -/
def padZeros (width : Nat) (s : String) : String :=
  String.mk (List.replicate (width - s.length) '0') ++ s

/-- Embeds Go's `fmt.Sprintf("%f", x)` on the rational model: fixed six
fractional digits, rounding the value to the nearest multiple of 10⁻⁶ with
ties to even, as Go's formatter does for values at a decimal midpoint. -/
def goFmtF (q : Rat) : String :=
  let n : Int := q.num * 1000000
  let d : Int := (q.den : Int)
  let f : Int := Int.fdiv n d
  let r : Int := n - f * d
  let scaled : Int :=
    if 2 * r < d then f
    else if d < 2 * r then f + 1
    else if f % 2 = 0 then f else f + 1
  let a : Nat := scaled.natAbs
  (if scaled < 0 then "-" else "") ++ toString (a / 1000000) ++ "." ++
    padZeros 6 (toString (a % 1000000))

/-- Embeds Go's conversion `int(x)` applied to `loc.Altitude` (main.go row
assembly): the fractional part is discarded, i.e. truncation toward zero. -/
def ratTrunc (q : Rat) : Int :=
  Int.tdiv q.num (q.den : Int)

/-- Embeds the first-seen update in the scan callback (main.go):
`if _, seen := firstSeen[addr]; !seen { firstSeen[addr] = now }`.
The Go map is modelled as an association list. -/
def touchFS (firstSeen : List (String × Nat)) (addr : String) (now : Nat) :
    List (String × Nat) :=
  match firstSeen.lookup addr with
  | some _ => firstSeen
  | none => (addr, now) :: firstSeen

/-- Rendering of the first-seen instant. Go uses
`t.Format("2006-01-02 15:04:05")`; the abstract tick is rendered injectively
(see the module comment). -/
def goTimeFormat (t : Nat) : String :=
  toString t

/-- A BLE discovery event, with the fields the scan callback consumes:
`device.Address.String()`, `device.LocalName()`, `device.RSSI`, and the
company IDs of the manufacturer-data entries in payload order. -/
structure ScanResult where
  address : String
  localName : String
  rssi : Int
  manufacturerData : List Nat
  deriving DecidableEq

/-- Embeds the manufacturer-ID extraction loop in the scan callback
(main.go): the first company ID present, rendered in decimal via
`fmt.Sprintf("%d", md.CompanyID)`, otherwise the empty string. -/
def mfgrIdOf : List Nat → String
  | [] => ""
  | c :: _ => toString c

/-- The WiGLE Bluetooth CSV header row written once at startup (main.go). -/
def csvHeader : List String :=
  ["MAC", "SSID", "AuthMode", "FirstSeen", "Channel",
   "Frequency", "RSSI", "CurrentLatitude", "CurrentLongitude",
   "AltitudeMeters", "AccuracyMeters", "RCOIs", "MfgrId", "Type"]

/-- Embeds one invocation of the scan callback passed to `adapter.Scan`
(main.go): read the location snapshot; with no fix, drop the event; with a
fix, update the first-seen registry, resolve the device class, build the
capability string, and assemble the 14-column row. Returns the new
first-seen registry and the emitted row, if any. -/
def scanCallback (registry : String → Except String DBusVariant)
    (loc : LocationData) (firstSeen : List (String × Nat))
    (now : Nat) (device : ScanResult) :
    List (String × Nat) × Option (List String) :=
  if !loc.Fix then (firstSeen, none)
  else
    let addr := device.address
    let fs := touchFS firstSeen addr now
    let deviceClass := getDeviceClass registry addr
    let capabilities := buildCapabilities deviceClass
    let deviceTypeCode := deviceClass &&& 0x1FFC
    let mfgrID := mfgrIdOf device.manufacturerData
    let row : List String :=
      [addr,
       device.localName,
       capabilities,
       goTimeFormat ((fs.lookup addr).getD 0),
       "0",
       toString deviceTypeCode,
       toString device.rssi,
       goFmtF loc.Latitude,
       goFmtF loc.Longitude,
       toString (ratTrunc loc.Altitude),
       goFmtF loc.Error,
       "",
       mfgrID,
       "BLE"]
    (fs, some row)

/-- Drives the scan callback over a sequence of discovery events (each an
abstract arrival tick plus the event), threading the first-seen registry and
collecting the emitted rows in order. -/
def runScan (registry : String → Except String DBusVariant)
    (loc : LocationData) :
    List (String × Nat) → List (Nat × ScanResult) →
      List (String × Nat) × List (List String)
  | firstSeen, [] => (firstSeen, [])
  | firstSeen, (now, device) :: events =>
      let step := scanCallback registry loc firstSeen now device
      let rest := runScan registry loc step.1 events
      (rest.1,
       match step.2 with
       | some row => row :: rest.2
       | none => rest.2)

/-- An atomic step on the mutex-protected `currentLocation` (main.go): each
lock-protected critical section — the whole-struct write in `tpvFilter`, or
the whole-struct copy at the top of the scan callback — is one step; the
mutex makes any concurrent execution equivalent to some interleaving of
these steps. -/
inductive LocEvent where
  | upd (report : TPVReport)
  | read
  deriving DecidableEq

/-- Runs an interleaving of location updates and snapshot reads: returns the
final stored value and the list of values observed by the reads, in order. -/
def locRun : LocationData → List LocEvent → LocationData × List LocationData
  | s, [] => (s, [])
  | _, LocEvent.upd r :: rest => locRun (tpvFilter r) rest
  | s, LocEvent.read :: rest =>
      let res := locRun s rest
      (res.1, s :: res.2)

/-- The snapshot value an update event installs, if the event is an update. -/
def updView : LocEvent → Option LocationData
  | LocEvent.upd r => some (tpvFilter r)
  | LocEvent.read => none

/-- Observable outcome of the tail of `main` (main.go) after `adapter.Scan`
returns: the diagnostics printed, how many times a scan start was attempted,
and whether control ever leaves `main`. -/
structure MainTailResult where
  diagnostics : List String
  scanStarts : Nat
  terminated : Bool
  deriving DecidableEq

/-- Embeds the tail of `main` (main.go): exactly one call to `adapter.Scan`;
if it returns an error, `"failed to start scan:"` plus the error is printed;
either way control then enters the unconditional `for {}` busy loop, so it
never leaves `main` (`terminated := false`) and the scan is never restarted
(`scanStarts := 1` on both paths). -/
def mainTail (scanErr : Option String) : MainTailResult :=
  { diagnostics :=
      match scanErr with
      | some e => ["failed to start scan: " ++ e]
      | none => []
    scanStarts := 1
    terminated := false }

/-! ### Helper lemmas -/

/-- A value produced by `List.lookup` is among the stored values. -/
lemma lookup_mem_snd {l : List (Nat × String)} {k : Nat} {v : String}
    (h : l.lookup k = some v) : v ∈ l.map Prod.snd := by
  induction l with
  | nil => simp [List.lookup] at h
  | cons p l ih =>
      obtain ⟨a, b⟩ := p
      rw [List.lookup] at h
      cases hk : k == a with
      | true => rw [hk] at h; simp at h; simp [h]
      | false =>
          rw [hk] at h
          simp at h
          rw [List.map_cons]
          exact List.mem_cons_of_mem _ (ih h)

/-- Every value of the device-type legend is a nonempty string. -/
lemma legend_ne_empty (m : Nat) : deviceTypeLegend m ≠ "" := by
  unfold deviceTypeLegend
  cases h : deviceTypeTable.lookup m with
  | none => simp
  | some v =>
      have hv := lookup_mem_snd h
      have hall : ∀ s ∈ deviceTypeTable.map Prod.snd, s ≠ "" := by decide
      simpa using hall v hv

/-- `buildCapabilities` always takes the nonempty branch: it is the legend of
the masked code followed by `" [LE]"`. -/
lemma buildCapabilities_eq (cod : Nat) :
    buildCapabilities cod = deviceTypeLegend (cod &&& 0x1FFC) ++ " [LE]" := by
  unfold buildCapabilities
  exact if_pos (legend_ne_empty _)

/-- The mask 0x1FFC is idempotent. -/
lemma land_mask_idem (c : Nat) : c &&& 0x1FFC &&& 0x1FFC = c &&& 0x1FFC := by
  apply Nat.eq_of_testBit_eq
  intro i
  simp [Nat.testBit_land, Bool.and_assoc]

/-- Touching an already-seen address leaves the registry unchanged. -/
lemma touchFS_of_lookup_some {fs : List (String × Nat)} {addr : String}
    {t : Nat} (h : fs.lookup addr = some t) (now : Nat) :
    touchFS fs addr now = fs := by
  unfold touchFS
  rw [h]

/-- Touching an unseen address records the current tick. -/
lemma touchFS_of_lookup_none {fs : List (String × Nat)} {addr : String}
    (h : fs.lookup addr = none) (now : Nat) :
    touchFS fs addr now = (addr, now) :: fs := by
  unfold touchFS
  rw [h]

/-- The scan callback under a valid fix: the registry is touched and the full
row is emitted. -/
lemma scanCallback_fix_true (registry : String → Except String DBusVariant)
    (loc : LocationData) (firstSeen : List (String × Nat)) (now : Nat)
    (device : ScanResult) (hFix : loc.Fix = true) :
    scanCallback registry loc firstSeen now device =
      (touchFS firstSeen device.address now,
       some [device.address,
             device.localName,
             buildCapabilities (getDeviceClass registry device.address),
             goTimeFormat
               (((touchFS firstSeen device.address now).lookup
                  device.address).getD 0),
             "0",
             toString (getDeviceClass registry device.address &&& 0x1FFC),
             toString device.rssi,
             goFmtF loc.Latitude,
             goFmtF loc.Longitude,
             toString (ratTrunc loc.Altitude),
             goFmtF loc.Error,
             "",
             mfgrIdOf device.manufacturerData,
             "BLE"]) := by
  unfold scanCallback
  rw [hFix]
  rfl

example : buildCapabilities 0x020C = "Smartphone [LE]" := by decide
example : buildCapabilities 0 = "Misc [LE]" := by decide
example : goFmtF (-122) = "-122.000000" := by decide
example : goFmtF 5 = "5.000000" := by decide
example : ratTrunc (mkRat 109 10) = 10 := by decide
example : ratTrunc (mkRat (-37) 10) = -3 := by decide

/-! ### Concrete fixtures used by witnesses -/

/-- A location snapshot holding a valid fix at 37, -122, altitude 10, eph 5. -/
def locW : LocationData :=
  { Fix := true, Latitude := 37, Longitude := -122, Altitude := 10, Error := 5 }

/-- A location snapshot with no fix. -/
def locNoFixW : LocationData :=
  { Fix := false, Latitude := 0, Longitude := 0, Altitude := 0, Error := 0 }

/-- A location snapshot whose altitude has a fractional part, 10.9 m. -/
def locFracAltW : LocationData :=
  { Fix := true, Latitude := 37, Longitude := -122, Altitude := mkRat 109 10,
    Error := 5 }

/-- A discovery event: smartphone advertising one manufacturer-data entry. -/
def devW : ScanResult :=
  { address := "AA:BB:CC:DD:EE:FF", localName := "Pixel", rssi := -60,
    manufacturerData := [76] }

/-- A registry that resolves every device to class 0x020C (Smartphone). -/
def regSmartW : String → Except String DBusVariant :=
  fun _ => Except.ok (DBusVariant.u32 0x020C)

/-- A registry whose every lookup fails. -/
def regErrW : String → Except String DBusVariant :=
  fun _ => Except.error "lookup failed"

/-- The row emitted for `devW` under `locW` when the registry fails. -/
def rowErrW : List String :=
  ((scanCallback regErrW locW [] 5 devW).2).getD []

/-- The row emitted for `devW` under `locFracAltW` when the registry fails. -/
def rowFracAltW : List String :=
  ((scanCallback regErrW locFracAltW [] 5 devW).2).getD []

/-! ### Claims -/

/-- C1: while the snapshot has no fix the scan callback discards the event —
the first-seen registry is unchanged and no row is produced — and a row is
produced only when the snapshot holds a valid fix. -/
theorem spec_C1 (registry : String → Except String DBusVariant)
    (loc : LocationData) (firstSeen : List (String × Nat)) (now : Nat)
    (device : ScanResult) :
    (loc.Fix = false →
      scanCallback registry loc firstSeen now device = (firstSeen, none)) ∧
    (∀ row, (scanCallback registry loc firstSeen now device).2 = some row →
      loc.Fix = true) := by
  constructor
  · intro h
    unfold scanCallback
    rw [h]
    rfl
  · intro row hrow
    cases hF : loc.Fix with
    | true => rfl
    | false =>
        unfold scanCallback at hrow
        rw [hF] at hrow
        simp at hrow

/-- Witness for C1 at a concrete no-fix snapshot. -/
theorem spec_C1_witness :
    scanCallback regErrW locNoFixW [] 0 devW = ([], none) :=
  (spec_C1 regErrW locNoFixW [] 0 devW).1 rfl

/-- C2: whenever the masked class code is a key of the capability table,
`buildCapabilities` returns that legend string followed by `" [LE]"`; when
the masked code has no table entry it returns `"Misc [LE]"`; in particular
0x0100, 0x020C, 0x1F00 and 0 map as documented. -/
theorem spec_C2 :
    (∀ cod v, cod < 2 ^ 32 →
      deviceTypeTable.lookup (cod &&& 0x1FFC) = some v →
      buildCapabilities cod = v ++ " [LE]") ∧
    (∀ cod, cod < 2 ^ 32 →
      deviceTypeTable.lookup (cod &&& 0x1FFC) = none →
      buildCapabilities cod = "Misc [LE]") ∧
    buildCapabilities 0x0100 = "Computer [LE]" ∧
    buildCapabilities 0x020C = "Smartphone [LE]" ∧
    buildCapabilities 0x1F00 = "Uncategorized [LE]" ∧
    buildCapabilities 0 = "Misc [LE]" := by
  refine ⟨?_, ?_, by decide, by decide, by decide, by decide⟩
  · intro cod v _ h
    rw [buildCapabilities_eq]
    unfold deviceTypeLegend
    rw [h]
    rfl
  · intro cod _ h
    rw [buildCapabilities_eq]
    unfold deviceTypeLegend
    rw [h]
    rfl

/-- Witness for C2 at the concrete table entry 0x0104 → "Desktop". -/
theorem spec_C2_witness :
    buildCapabilities 0x0104 = "Desktop" ++ " [LE]" :=
  spec_C2.1 0x0104 "Desktop" (by decide) (by decide)

/-- C4: the header is exactly the fourteen documented column names in order
(it is a fixed constant, hence identical on every run), and every emitted
data row has exactly fourteen fields with Channel `"0"`, RCOIs `""` and Type
`"BLE"`. -/
theorem spec_C4 :
    csvHeader =
      ["MAC", "SSID", "AuthMode", "FirstSeen", "Channel", "Frequency",
       "RSSI", "CurrentLatitude", "CurrentLongitude", "AltitudeMeters",
       "AccuracyMeters", "RCOIs", "MfgrId", "Type"] ∧
    csvHeader.length = 14 ∧
    ∀ registry loc firstSeen now device row,
      (scanCallback registry loc firstSeen now device).2 = some row →
      row.length = 14 ∧ row[4]? = some "0" ∧ row[11]? = some "" ∧
        row[13]? = some "BLE" := by
  refine ⟨rfl, rfl, ?_⟩
  intro registry loc firstSeen now device row hrow
  cases hF : loc.Fix with
  | false =>
      unfold scanCallback at hrow
      rw [hF] at hrow
      simp at hrow
  | true =>
      rw [scanCallback_fix_true registry loc firstSeen now device hF] at hrow
      simp at hrow
      rw [← hrow]
      refine ⟨rfl, rfl, rfl, rfl⟩

/-- Witness for C4 at a concrete emitted row. -/
theorem spec_C4_witness :
    rowErrW.length = 14 ∧ rowErrW[4]? = some "0" ∧ rowErrW[11]? = some "" ∧
      rowErrW[13]? = some "BLE" :=
  spec_C4.2.2 regErrW locW [] 5 devW rowErrW (by rfl)

/-- C5: `buildCapabilities` is a total function, deterministic, and invariant
under the 0x1FFC mask: bits outside positions 2-12 never influence it. -/
theorem spec_C5 :
    (∀ cod, cod < 2 ^ 32 →
      buildCapabilities cod = buildCapabilities (cod &&& 0x1FFC)) ∧
    (∀ c1 c2, c1 < 2 ^ 32 → c2 < 2 ^ 32 → c1 = c2 →
      buildCapabilities c1 = buildCapabilities c2) := by
  constructor
  · intro cod _
    rw [buildCapabilities_eq, buildCapabilities_eq, land_mask_idem]
  · intro c1 c2 _ _ h
    rw [h]

/-- Witness for C5: masking is invisible at the 32-bit code 0xFF00020F. -/
theorem spec_C5_witness :
    buildCapabilities 0xFF00020F =
      buildCapabilities (0xFF00020F &&& 0x1FFC) :=
  spec_C5.1 0xFF00020F (by decide)

/-- C6: on a registry lookup error or a non-uint32 variant, `getDeviceClass`
returns 0 and never propagates the error; the callback still returns
normally (so later events keep being processed) and the emitted row has
AuthMode `"Misc [LE]"` and Frequency `"0"`. -/
theorem spec_C6 (registry : String → Except String DBusVariant)
    (loc : LocationData) (firstSeen : List (String × Nat)) (now : Nat)
    (device : ScanResult) (hFix : loc.Fix = true)
    (hFail : (∃ e, registry (devicePath device.address) = Except.error e) ∨
      registry (devicePath device.address) = Except.ok DBusVariant.other) :
    getDeviceClass registry device.address = 0 ∧
    ((scanCallback registry loc firstSeen now device).2).isSome = true ∧
    (((scanCallback registry loc firstSeen now device).2).getD [])[2]? =
      some "Misc [LE]" ∧
    (((scanCallback registry loc firstSeen now device).2).getD [])[5]? =
      some "0" := by
  have hClass : getDeviceClass registry device.address = 0 := by
    unfold getDeviceClass
    rcases hFail with ⟨e, he⟩ | he
    · rw [he]
    · rw [he]
  refine ⟨hClass, ?_, ?_, ?_⟩ <;>
    rw [scanCallback_fix_true registry loc firstSeen now device hFix] <;>
    rw [hClass] <;> rfl

/-- Witness for C6: a registry whose lookups all fail. -/
theorem spec_C6_witness :
    getDeviceClass regErrW devW.address = 0 ∧
    ((scanCallback regErrW locW [] 5 devW).2).isSome = true ∧
    (((scanCallback regErrW locW [] 5 devW).2).getD [])[2]? =
      some "Misc [LE]" ∧
    (((scanCallback regErrW locW [] 5 devW).2).getD [])[5]? = some "0" :=
  spec_C6 regErrW locW [] 5 devW rfl (Or.inl ⟨"lookup failed", rfl⟩)

/-- C7: end-to-end scenario — a mode-3 report at 37, -122, alt 10, eph 5 is
stored as a fix; a discovery event whose registry class is 0x020C and whose
RSSI is -60 yields a row with AuthMode "Smartphone [LE]", Frequency "524",
CurrentLatitude "37.000000" and CurrentLongitude "-122.000000". -/
theorem spec_C7 :
    (tpvFilter { Mode := 3, Lat := 37, Lon := -122, Alt := 10, Eph := 5 }).Fix
        = true ∧
    (scanCallback regSmartW
        (tpvFilter { Mode := 3, Lat := 37, Lon := -122, Alt := 10, Eph := 5 })
        [] 5 devW).2 =
      some ["AA:BB:CC:DD:EE:FF", "Pixel", "Smartphone [LE]", goTimeFormat 5,
            "0", "524", "-60", "37.000000", "-122.000000", "10", "5.000000",
            "", "76", "BLE"] := by
  constructor
  · rfl
  · decide

/-- C9 counterexample: the claim says a failed scan start makes the process
exit; in the code, after printing the diagnostic, control falls into the
unconditional `for {}` busy loop and never leaves `main`. -/
theorem spec_C9_counterexample :
    (mainTail (some "scan failed")).diagnostics =
      ["failed to start scan: scan failed"] ∧
    ¬ (mainTail (some "scan failed")).terminated = true := by
  constructor
  · rfl
  · decide

/-- C9 (amended): if `adapter.Scan` returns an error, the failure is reported
("failed to start scan:" plus the error) and the scan subscription is never
restarted (exactly one start attempt); the process then spins in the
unconditional busy loop rather than exiting. -/
theorem spec_C9 (e : String) :
    (mainTail (some e)).diagnostics = ["failed to start scan: " ++ e] ∧
    (mainTail (some e)).scanStarts = 1 ∧
    (mainTail (some e)).terminated = false :=
  ⟨rfl, rfl, rfl⟩

/-- C10: the AltitudeMeters field is the decimal rendering of the snapshot
altitude truncated toward zero: 10.9 becomes "10" and -3.7 becomes "-3",
not the nearest-integer roundings 11 and -4. -/
theorem spec_C10 (registry : String → Except String DBusVariant)
    (loc : LocationData) (firstSeen : List (String × Nat)) (now : Nat)
    (device : ScanResult) (row : List String)
    (hrow : (scanCallback registry loc firstSeen now device).2 = some row) :
    row[9]? = some (toString (ratTrunc loc.Altitude)) ∧
    ratTrunc (mkRat 109 10) = 10 ∧ ratTrunc (mkRat (-37) 10) = -3 ∧
    toString (ratTrunc (mkRat 109 10)) = "10" ∧
    toString (ratTrunc (mkRat (-37) 10)) = "-3" := by
  refine ⟨?_, by decide, by decide, by decide, by decide⟩
  cases hF : loc.Fix with
  | false =>
      unfold scanCallback at hrow
      rw [hF] at hrow
      simp at hrow
  | true =>
      rw [scanCallback_fix_true registry loc firstSeen now device hF] at hrow
      simp at hrow
      rw [← hrow]
      rfl

/-- Witness for C10 at a snapshot whose altitude is 10.9 m. -/
theorem spec_C10_witness :
    rowFracAltW[9]? = some (toString (ratTrunc locFracAltW.Altitude)) ∧
    ratTrunc (mkRat 109 10) = 10 ∧ ratTrunc (mkRat (-37) 10) = -3 ∧
    toString (ratTrunc (mkRat 109 10)) = "10" ∧
    toString (ratTrunc (mkRat (-37) 10)) = "-3" :=
  spec_C10 regErrW locFracAltW [] 5 devW rowFracAltW (by rfl)

/-- Once the first-seen registry maps `a` to `t0`, running any further events
for `a` preserves that entry, and every row those events emit carries
`goTimeFormat t0` in its FirstSeen column (index 3). -/
lemma runScan_firstSeen_stable (registry : String → Except String DBusVariant)
    (loc : LocationData) (a : String) (t0 : Nat) :
    ∀ (events : List (Nat × ScanResult)) (fs : List (String × Nat)),
      loc.Fix = true → fs.lookup a = some t0 →
      (∀ e ∈ events, (Prod.snd e).address = a) →
      (runScan registry loc fs events).1.lookup a = some t0 ∧
        ((runScan registry loc fs events).2).all
          (fun row => row[3]? == some (goTimeFormat t0)) = true := by
  intro events
  induction events with
  | nil =>
      intro fs _ h _
      exact ⟨h, rfl⟩
  | cons e rest ih =>
      intro fs hFix hl hall
      obtain ⟨now, device⟩ := e
      have hAddr : device.address = a := hall (now, device) (by simp)
      rw [runScan]
      rw [scanCallback_fix_true registry loc fs now device hFix, hAddr,
        touchFS_of_lookup_some hl now]
      have hrest := ih fs hFix hl (fun p hp => hall p (List.mem_cons_of_mem _ hp))
      refine ⟨hrest.1, ?_⟩
      rw [List.all_cons, hrest.2, Bool.and_true]
      simp [hl]

/-- C3: the first-seen registry is write-once per address — for any sequence
of discovery events for one address, every emitted row carries the FirstSeen
timestamp recorded at the first touch of that address, however many later
events occur. -/
theorem spec_C3 (registry : String → Except String DBusVariant)
    (loc : LocationData) (firstSeen : List (String × Nat)) (a : String)
    (t0 : Nat) (dev0 : ScanResult) (events : List (Nat × ScanResult))
    (hFix : loc.Fix = true) (hNew : firstSeen.lookup a = none)
    (hA : dev0.address = a)
    (hAll : ∀ e ∈ events, (Prod.snd e).address = a) :
    ((runScan registry loc firstSeen ((t0, dev0) :: events)).2).all
      (fun row => row[3]? == some (goTimeFormat t0)) = true := by
  rw [runScan]
  rw [scanCallback_fix_true registry loc firstSeen t0 dev0 hFix, hA,
    touchFS_of_lookup_none hNew t0]
  have hl : (((a, t0) :: firstSeen).lookup a) = some t0 := by simp
  have hrest := runScan_firstSeen_stable registry loc a t0 events
    ((a, t0) :: firstSeen) hFix hl hAll
  rw [List.all_cons, hrest.2, Bool.and_true]
  simp

/-- Witness for C3: three events for one address, 5, 9 and 30 ticks in. -/
theorem spec_C3_witness :
    ((runScan regErrW locW [] [(5, devW), (9, devW), (30, devW)]).2).all
      (fun row => row[3]? == some (goTimeFormat 5)) = true :=
  spec_C3 regErrW locW [] "AA:BB:CC:DD:EE:FF" 5 devW [(9, devW), (30, devW)]
    rfl rfl rfl (by decide)

/-- C8: under any interleaving of position-report updates and snapshot reads,
each value observed by a read is the initial snapshot or the whole value
installed by a single update (`tpvFilter` of one report) — fields from two
different updates are never mixed. -/
theorem spec_C8 (init : LocationData) (events : List LocEvent)
    (d : LocationData) (h : d ∈ (locRun init events).2) :
    d ∈ init :: events.filterMap updView := by
  induction events generalizing init with
  | nil =>
      rw [locRun] at h
      simp at h
  | cons e rest ih =>
      cases e with
      | upd r =>
          rw [locRun] at h
          have hmem := ih (tpvFilter r) h
          rw [List.filterMap_cons]
          simp only [updView] at hmem ⊢
          rcases List.mem_cons.mp hmem with h1 | h2
          · exact List.mem_cons_of_mem _ (h1 ▸ List.mem_cons_self _ _)
          · exact List.mem_cons_of_mem _ (List.mem_cons_of_mem _ h2)
      | read =>
          rw [locRun] at h
          rcases List.mem_cons.mp h with h1 | h2
          · exact h1 ▸ List.mem_cons_self _ _
          · have hmem := ih init h2
            rw [List.filterMap_cons]
            exact hmem

/-- A mode-3 TPV report at 37, -122, altitude 10, eph 5. -/
def tpvW : TPVReport :=
  { Mode := 3, Lat := 37, Lon := -122, Alt := 10, Eph := 5 }

/-- Witness for C8: an update followed by a read observes exactly the
installed snapshot. -/
theorem spec_C8_witness :
    tpvFilter tpvW ∈
      locNoFixW ::
        ([LocEvent.upd tpvW, LocEvent.read] : List LocEvent).filterMap
          updView :=
  spec_C8 locNoFixW [LocEvent.upd tpvW, LocEvent.read] (tpvFilter tpvW)
    (by decide)
